import Mathlib

set_option maxRecDepth 8000

/-!
Verification of the dispatch-and-cache layer of the AuraCode repository
(`start-local.js` third document: `AuraComm`; unnamed part 002: `AuraRunner`).

Modelling conventions, used throughout:
* JavaScript values flowing through the layer are modelled by the `Json`
  inductive below; the JS `undefined` value is modelled by `Option.none`
  at the points where it can occur (absent object fields, functions that
  can return without a value).
* The platform primitives the code calls (`btoa`, `TextEncoder.encode`,
  `crypto.subtle.digest('SHA-256', ...)`, `String.prototype.toUpperCase`,
  `String.prototype.trim`, `Number`) are given faithful executable models
  for the value domain that can actually reach them.
* `fetch` and the backend nodes are opaque collaborators; a network oracle
  `net : String → AttemptOutcome` maps a request URL to the outcome of one
  POST attempt (`ok body` = transport success with a parseable JSON body,
  `fail msg` = connection error / timeout / non-2xx / body parse error,
  which the code treats uniformly via the `try`/`catch` in `tryPost`).
  The request payload's nondeterministic fields (`timestamp`, `id`) do not
  influence any behaviour under study, so the oracle reads only the URL.
* The IndexedDB store `execution_results` is modelled as an association
  list `List (String × Json)`; `put` is modelled by consing (first-match
  lookup realises overwrite), `get` by first-match lookup.
-/

/-- Base64 alphabet used by the platform `btoa`. -/
def b64Chars : List Char :=
  "ABCDEFGHIJKLMNOPQRSTUVWXYZabcdefghijklmnopqrstuvwxyz0123456789+/".data

/-- Character of the base64 alphabet at index `n` (`n < 64` in all uses). -/
def b64Char (n : Nat) : Char := b64Chars.getD n 'A'

/-- Base64-encode a byte list (RFC 4648, with `=` padding), as `btoa` does. -/
def b64Encode : List Nat → List Char
  | [] => []
  | [a] => [b64Char (a / 4), b64Char (a % 4 * 16), '=', '=']
  | [a, b] => [b64Char (a / 4), b64Char (a % 4 * 16 + b / 16), b64Char (b % 16 * 4), '=']
  | a :: b :: c :: rest =>
      b64Char (a / 4) :: b64Char (a % 4 * 16 + b / 16) ::
        b64Char (b % 16 * 4 + c / 64) :: b64Char (c % 64) :: b64Encode rest

/-- Model of the platform `btoa`: returns the base64 rendering of the
string's code units when all of them are ≤ 0xFF, and fails (throwing
`InvalidCharacterError` in JS, `none` here) otherwise. -/
def btoa (s : String) : Option String :=
  if s.data.all (fun c => decide (c.toNat ≤ 255)) then
    some (String.mk (b64Encode (s.data.map Char.toNat)))
  else none

/-- UTF-8 encoding of one Unicode scalar value, as `TextEncoder.encode`. -/
def utf8Encode (c : Nat) : List Nat :=
  if c < 128 then [c]
  else if c < 2048 then [192 + c / 64, 128 + c % 64]
  else if c < 65536 then [224 + c / 4096, 128 + c / 64 % 64, 128 + c % 64]
  else [240 + c / 262144, 128 + c / 4096 % 64, 128 + c / 64 % 64, 128 + c % 64]

/-- UTF-8 byte sequence of a string, as `new TextEncoder().encode(text)`. -/
def strUtf8 (s : String) : List Nat := s.data.flatMap (fun c => utf8Encode c.toNat)

/-- Truncation to 32 bits. -/
def w32 (n : Nat) : Nat := n % 4294967296

/-- 32-bit right rotation (arguments already < 2^32, `n ≤ 32`). -/
def rotr32 (x n : Nat) : Nat := x / 2 ^ n + w32 (x * 2 ^ (32 - n))

/-- SHA-256 Ch function. -/
def chFn (x y z : Nat) : Nat := (x &&& y) ^^^ ((x ^^^ 4294967295) &&& z)

/-- SHA-256 Maj function. -/
def majFn (x y z : Nat) : Nat := (x &&& y) ^^^ (x &&& z) ^^^ (y &&& z)

/-- SHA-256 Σ₀. -/
def bigSigma0 (x : Nat) : Nat := rotr32 x 2 ^^^ rotr32 x 13 ^^^ rotr32 x 22

/-- SHA-256 Σ₁. -/
def bigSigma1 (x : Nat) : Nat := rotr32 x 6 ^^^ rotr32 x 11 ^^^ rotr32 x 25

/-- SHA-256 σ₀. -/
def smallSigma0 (x : Nat) : Nat := rotr32 x 7 ^^^ rotr32 x 18 ^^^ (x >>> 3)

/-- SHA-256 σ₁. -/
def smallSigma1 (x : Nat) : Nat := rotr32 x 17 ^^^ rotr32 x 19 ^^^ (x >>> 10)

/-- The 64 SHA-256 round constants of FIPS 180-4, in decimal. -/
def shaK : List Nat :=
  [1116352408, 1899447441, 3049323471, 3921009573, 961987163, 1508970993,
   2453635748, 2870763221, 3624381080, 310598401, 607225278, 1426881987,
   1925078388, 2162078206, 2614888103, 3248222580, 3835390401, 4022224774,
   264347078, 604807628, 770255983, 1249150122, 1555081692, 1996064986,
   2554220882, 2821834349, 2952996808, 3210313671, 3336571891, 3584528711,
   113926993, 338241895, 666307205, 773529912, 1294757372, 1396182291,
   1695183700, 1986661051, 2177026350, 2456956037, 2730485921, 2820302411,
   3259730800, 3345764771, 3516065817, 3600352804, 4094571909, 275423344,
   430227734, 506948616, 659060556, 883997877, 958139571, 1322822218,
   1537002063, 1747873779, 1955562222, 2024104815, 2227730452, 2361852424,
   2428436474, 2756734187, 3204031479, 3329325298]

/-- The eight SHA-256 initial hash words of FIPS 180-4, in decimal. -/
def shaInit : List Nat :=
  [1779033703, 3144134277, 1013904242, 2773480762, 1359893119, 2600822924,
   528734635, 1541459225]

/-- SHA-256 message padding: append `0x80`, zeros to 56 mod 64, then the
bit length as 8 big-endian bytes. -/
def sha256Pad (msg : List Nat) : List Nat :=
  let L := msg.length
  let z := (119 - L % 64) % 64
  msg ++ [128] ++ List.replicate z 0 ++
    ([56, 48, 40, 32, 24, 16, 8, 0].map (fun k => (L * 8) >>> k &&& 255))

/-- Pack bytes into big-endian 32-bit words. -/
def toWords : List Nat → List Nat
  | a :: b :: c :: d :: rest => (a * 16777216 + b * 65536 + c * 256 + d) :: toWords rest
  | _ => []

/-- Extend a 16-word block to the 64-word message schedule (fuelled: 48 steps). -/
def shaExtendAux : Nat → List Nat → List Nat
  | 0, w => w
  | fuel + 1, w =>
      let i := w.length
      let nw := w32 (smallSigma1 (w.getD (i - 2) 0) + w.getD (i - 7) 0 +
        smallSigma0 (w.getD (i - 15) 0) + w.getD (i - 16) 0)
      shaExtendAux fuel (w ++ [nw])

/-- The 64-word message schedule of one block. -/
def shaSchedule (w16 : List Nat) : List Nat := shaExtendAux 48 w16

/-- The 64 compression rounds: consume constants and schedule in lockstep. -/
def shaRounds : List Nat → List Nat → List Nat → List Nat
  | k :: ks, w :: ws, [a, b, c, d, e, f, g, h] =>
      let t1 := w32 (h + bigSigma1 e + chFn e f g + k + w)
      let t2 := w32 (bigSigma0 a + majFn a b c)
      shaRounds ks ws [w32 (t1 + t2), a, b, c, w32 (d + t1), e, f, g]
  | _, _, st => st

/-- Compress one 64-byte block into the running state. -/
def shaBlock (hs : List Nat) (block : List Nat) : List Nat :=
  let st := shaRounds shaK (shaSchedule (toWords block)) hs
  List.zipWith (fun a b => w32 (a + b)) hs st

/-- Fold the compression over all 64-byte blocks (fuelled by byte count). -/
def shaBlocksAux : Nat → List Nat → List Nat → List Nat
  | 0, hs, _ => hs
  | fuel + 1, hs, bytes =>
      match bytes with
      | [] => hs
      | _ => shaBlocksAux fuel (shaBlock hs (bytes.take 64)) (bytes.drop 64)

/-- Hex alphabet. -/
def hexChars : List Char := "0123456789abcdef".data

/-- Two lowercase hex digits of a byte, as
`b.toString(16).padStart(2, '0')`. -/
def byteToHex (b : Nat) : List Char := [hexChars.getD (b / 16) '0', hexChars.getD (b % 16) '0']

/-- Big-endian bytes of a 32-bit word. -/
def wordBytes (w : Nat) : List Nat := [w / 16777216 % 256, w / 65536 % 256, w / 256 % 256, w % 256]

/-- SHA-256 digest of a byte list, rendered as 64 lowercase hex characters.
Models `crypto.subtle.digest('SHA-256', bytes)` followed by the hex
rendering in `AuraRunner.hash`. -/
def sha256hex (msg : List Nat) : String :=
  let padded := sha256Pad msg
  let hs := shaBlocksAux padded.length shaInit padded
  String.mk ((hs.flatMap wordBytes).flatMap byteToHex)

/-- `AuraRunner.hash(text)`: SHA-256 of the UTF-8 bytes of `text`, in hex. -/
def auraHash (text : String) : String := sha256hex (strUtf8 text)

/-- Sanity: the model reproduces the standard SHA-256 test vector. -/
theorem sha256hex_abc :
    auraHash "abc" = "ba7816bf8f01cfea414140de5dae2223b00361a396177a9cb410ff61f20015ad" := by
  rfl

/-- Sanity: `btoa` agrees with the platform on an ASCII example and fails on
a non-Latin-1 code unit. -/
theorem btoa_examples : btoa "ab" = some "YWI=" ∧ btoa "π" = none := by
  exact ⟨rfl, rfl⟩

/-- JSON values, the value domain of backend response bodies and of the
fields the communication layer passes around. JSON numbers are modelled
as integers: every number the layer inspects (`exit_code`, `latency_ms`)
is an integer in all recognised response shapes. -/
inductive Json where
  | null : Json
  | bool : Bool → Json
  | num : Int → Json
  | str : String → Json
  | arr : List Json → Json
  | obj : List (String × Json) → Json

/-- Last binding of key `k` (JSON duplicate keys resolve to the last one,
as in `JSON.parse` and JS object literals). -/
def lastLookup : List (String × Json) → String → Option Json
  | [], _ => none
  | (k', v) :: rest, k =>
      match lastLookup rest k with
      | some w => some w
      | none => if k' = k then some v else none

/-- JS property read `data[k]` on a JSON value; `none` models `undefined`.
Named properties of arrays and of primitives do not exist. -/
def getField : Json → String → Option Json
  | .obj fs, k => lastLookup fs k
  | _, _ => none

/-- JS `k in data` for the keys the layer probes (`'stdout' in data` etc.). -/
def hasField (j : Json) (k : String) : Bool := (getField j k).isSome

/-- JS `typeof data === 'object' && data` (arrays included, `null` excluded). -/
def isObjectLike : Json → Bool
  | .arr _ => true
  | .obj _ => true
  | _ => false

/-- JS truthiness of a JSON value (`NaN` cannot occur in parsed JSON). -/
def jsTruthy : Json → Bool
  | .null => false
  | .bool b => b
  | .num n => n != 0
  | .str s => s != ""
  | .arr _ => true
  | .obj _ => true

/-- Decimal value of a nonempty all-digit character list. -/
def digitsVal (cs : List Char) : Option Nat :=
  if cs ≠ [] ∧ cs.all Char.isDigit then
    some (cs.foldl (fun a c => a * 10 + (c.toNat - 48)) 0)
  else none

/-- JS whitespace for trimming purposes (the forms that occur here). -/
def jsWhitespace (c : Char) : Bool := c == ' ' || c == '\t' || c == '\n' || c == '\r'

/-- Model of `String.prototype.trim`. -/
def jsTrim (s : String) : String :=
  String.mk (((s.data.dropWhile jsWhitespace).reverse.dropWhile jsWhitespace).reverse)

/-- Model of JS `Number(string)` on the string forms relevant here: an
optionally signed decimal integer literal (after trimming), the empty
string giving 0. Other numeric spellings (fractions, exponents, hex) are
conservatively mapped to NaN (`none`); no theorem below depends on such
inputs, since all stated properties constrain `exit_code` to JSON
integers. -/
def jsStringToNumber (s : String) : Option Int :=
  match (jsTrim s).data with
  | [] => some 0
  | '+' :: cs => (digitsVal cs).map Int.ofNat
  | '-' :: cs => (digitsVal cs).map (fun v => -(Int.ofNat v))
  | cs => (digitsVal cs).map Int.ofNat

/-- Model of JS `Number(v)` on JSON values; `none` models NaN.
`Number([])` is 0 and a one-element array coerces through its element's
string form — modelled here for the integer element case. -/
def jsNumber : Json → Option Int
  | .null => some 0
  | .bool b => some (if b then 1 else 0)
  | .num n => some n
  | .str s => jsStringToNumber s
  | .arr [] => some 0
  | .arr [Json.num n] => some n
  | .arr _ => none
  | .obj _ => none

/-- `Number` applied to a possibly-absent field (`Number(undefined)` is NaN). -/
def jsNumberOpt : Option Json → Option Int
  | none => none
  | some v => jsNumber v

/-- JS nullish coalescing `v ?? d` on a possibly-absent field. -/
def nullishDefault (v : Option Json) (d : Json) : Json :=
  match v with
  | some .null => d
  | some x => x
  | none => d

/-- JS logical-or `v || d` on a possibly-absent field (returns `v` when
truthy, else `d`). -/
def jsOrElse (v : Option Json) (d : Json) : Json :=
  match v with
  | some x => if jsTruthy x then x else d
  | none => d

/-- JS strict equality `v === "success"` on a possibly-absent field. -/
def isStatusSuccess : Option Json → Bool
  | some (.str s) => s == "success"
  | _ => false

/-- The ad-hoc result objects `AuraComm.handleResponse` returns. Absent
fields (`none`) model properties the constructing branch did not set. -/
structure NormalizedResult where
  success : Bool
  output : Option Json := none
  exit_code : Option Json := none
  latency_ms : Option Json := none
  error : Option Json := none

/-- `AuraComm.handleResponse(data)` (start-local.js, third document,
lines 190–216). Returns `none` exactly where the JS function runs off the
end without a `return` (non-object bodies), yielding `undefined`. The
`try`/`catch` inside it cannot fire: every operation in the guarded block
is total. The `Terminal.print` logging calls are outside the model. -/
def handleResponse (data : Json) : Option NormalizedResult :=
  if isObjectLike data then
    if hasField data "stdout" && hasField data "exit_code" then
      some { success := jsNumberOpt (getField data "exit_code") == some (0 : Int),
             output := getField data "stdout",
             exit_code := getField data "exit_code",
             latency_ms := some (nullishDefault (getField data "latency_ms") (.num 0)),
             error := none }
    else if isStatusSuccess (getField data "status") then
      some { success := true,
             output := getField data "stdout",
             exit_code := some (.num 0),
             latency_ms := some (nullishDefault (getField data "latency_ms") (.num 0)),
             error := none }
    else
      some { success := false,
             error := some (jsOrElse (getField data "error")
               (jsOrElse (getField data "message") (.str "Unknown node response"))) }
  else
    none

/-- Outcome of one `tryPost` attempt against one candidate URL: `ok body`
is a 2xx transport success whose body parsed as JSON; `fail msg` covers
every throw path inside `tryPost` (connection refused, abort on timeout,
the `HTTP <status>` error on a non-2xx response, and a body that fails
`resp.json()`), all of which the candidate loop treats identically. -/
inductive AttemptOutcome where
  | ok : Json → AttemptOutcome
  | fail : String → AttemptOutcome

/-- Whether an attempt outcome is a transport success. -/
def AttemptOutcome.isOk : AttemptOutcome → Bool
  | .ok _ => true
  | .fail _ => false

/-- One recorded network attempt: the URL contacted and the timeout (ms)
passed to `tryPost` for it. -/
structure Attempt where
  url : String
  timeoutMs : Nat
deriving DecidableEq

/-- How a `dispatch` call ends: either a JS exception escapes it
(`thrown`), or it returns — possibly returning `undefined` (`returned
none`), since `handleResponse` can run off the end. -/
inductive DispatchOutcome where
  | thrown : String → DispatchOutcome
  | returned : Option NormalizedResult → DispatchOutcome

/-- What the property read `this.nodes[lang]` can evaluate to on the
`nodes` object literal: one of its own port-array entries, or — because a
plain object literal inherits from `Object.prototype` — an inherited
member (a method such as `toString`, or the `__proto__` accessor's
result). Every inherited member is truthy and none is iterable. -/
inductive NodeEntry where
  | ports : List Nat → NodeEntry
  | protoMember : NodeEntry
deriving DecidableEq

/-- The property names an object literal inherits from
`Object.prototype`, per ECMA-262: reading `nodes[k]` for these `k` yields
a truthy, non-iterable value instead of `undefined`. -/
def objectProtoKeys : List String :=
  ["constructor", "hasOwnProperty", "isPrototypeOf", "propertyIsEnumerable",
   "toLocaleString", "toString", "valueOf", "__defineGetter__", "__defineSetter__",
   "__lookupGetter__", "__lookupSetter__", "__proto__"]

/-- `AuraComm.nodes` (start-local.js, third document, lines 116–121), as
the property-read function `lang ↦ this.nodes[lang]`: ten contiguous
preferred ports for each of the three own entries; an inherited
`Object.prototype` member for its property names; `undefined` (`none`)
for every other name. -/
def auraNodes : String → Option NodeEntry := fun lang =>
  if lang = "cpp" then some (.ports ((List.range 10).map (fun i => 56000 + i)))
  else if lang = "python" then some (.ports ((List.range 10).map (fun i => 55000 + i)))
  else if lang = "rust" then some (.ports ((List.range 10).map (fun i => 58000 + i)))
  else if lang ∈ objectProtoKeys then some .protoMember
  else none

/-- `this.nodes[lang] || this.nodes.python`: every defined entry — a port
array (even an empty one) or an inherited `Object.prototype` member — is
truthy, so the python fallback is taken only when the read yields
`undefined`. -/
def resolvePorts (table : String → Option NodeEntry) (lang : String) : Option NodeEntry :=
  match table lang with
  | some e => some e
  | none => table "python"

/-- `(lang === 'python') ? '/execute' : '/bridge'`. -/
def enginePath (lang : String) : String := if lang = "python" then "/execute" else "/bridge"

/-- The URL built for one candidate port. -/
def urlOf (port : Nat) (path : String) : String :=
  "http://localhost:" ++ toString port ++ path

/-- The aggregated failure value `dispatch` returns when the candidate
loop exhausts every port: `{ success: false, error: "No available <lang>
node ports" }`. -/
def failAggregate (lang : String) : NormalizedResult :=
  { success := false, error := some (.str ("No available " ++ lang ++ " node ports")) }

/-- The candidate loop of `AuraComm.dispatch` (lines 167–184): try each
port in order with timeout `4000 + attempt * 500`; on the first transport
success return `handleResponse` of the body; on failure continue (the
`200 + attempt * 50` backoff sleep has no observable effect in the model);
when the ports run out, return the aggregated failure. The returned list
records the attempts made, in order. -/
def dispatchLoop (net : String → AttemptOutcome) (lang path : String) :
    List Nat → Nat → Option NormalizedResult × List Attempt
  | [], _ => (some (failAggregate lang), [])
  | port :: rest, attemptsBefore =>
      match net (urlOf port path) with
      | .ok body =>
          (handleResponse body, [⟨urlOf port path, 4000 + (attemptsBefore + 1) * 500⟩])
      | .fail _ =>
          ((dispatchLoop net lang path rest (attemptsBefore + 1)).1,
            ⟨urlOf port path, 4000 + (attemptsBefore + 1) * 500⟩ ::
              (dispatchLoop net lang path rest (attemptsBefore + 1)).2)

/-- `AuraComm.dispatch(lang, source)` (lines 128–185), instrumented with
the list of attempts made. The payload construction runs first: its only
control-flow-relevant part is `btoa(source)`, which throws
`InvalidCharacterError` on a code unit above 0xFF — outside any
`try`/`catch`, so the exception escapes `dispatch` (modelled as
`thrown`). The payload's other fields (`op`, `timestamp`, `id`, options)
never influence the observed behaviour, and the backend is opaque, so the
network oracle reads only the URL. When `ports` resolves to an inherited
`Object.prototype` member (engine names like `toString`) it is truthy —
so the python fallback is not taken — but not iterable, and the
`for (const port of ports)` head throws a `TypeError` outside any
`try`/`catch`, escaping `dispatch`; when both reads yield `undefined`
(impossible with `auraNodes`, whose `python` entry exists) the
`ports.length` interpolation throws a `TypeError` first. -/
def dispatch (table : String → Option NodeEntry) (net : String → AttemptOutcome)
    (lang source : String) : DispatchOutcome × List Attempt :=
  match btoa source with
  | none => (.thrown "InvalidCharacterError", [])
  | some _ =>
      match resolvePorts table lang with
      | some (.ports ports) =>
          (.returned (dispatchLoop net lang (enginePath lang) ports 0).1,
            (dispatchLoop net lang (enginePath lang) ports 0).2)
      | some .protoMember => (.thrown "ports is not iterable", [])
      | none => (.thrown "Cannot read properties of undefined", [])

/-- Uppercase one char, as `toUpperCase` acts on the ASCII engine names. -/
def jsUpperChar (c : Char) : Char :=
  if 'a' ≤ c ∧ c ≤ 'z' then Char.ofNat (c.toNat - 32) else c

/-- Model of `String.prototype.toUpperCase` on the engine names in use. -/
def jsToUpper (s : String) : String := String.mk (s.data.map jsUpperChar)

/-- Comma-join a list of strings, as `Array.prototype.join(',')`. -/
def commaJoin : List String → String
  | [] => ""
  | [s] => s
  | s :: rest => s ++ "," ++ commaJoin rest

/-- JS `String(v)` / template-literal rendering of a JSON value, with a
structural fuel so the definition reduces definitionally: arrays render
as their comma-joined elements with `null` elements empty, objects as
`[object Object]`. Fuel exhaustion (never reached from `jsString`, whose
fuel bounds the nesting depth) renders as the empty string. -/
def jsStringAux : Nat → Json → String
  | _, .null => "null"
  | _, .bool b => if b then "true" else "false"
  | _, .num n => toString n
  | _, .str s => s
  | _, .obj _ => "[object Object]"
  | 0, .arr _ => ""
  | fuel + 1, .arr xs =>
      commaJoin (xs.map (fun x =>
        match x with
        | Json.null => ""
        | v => jsStringAux fuel v))

/-- JS `String(v)` rendering of a JSON value. The fuel 2^64 dominates the
nesting depth of any materialisable JSON value by dozens of orders of
magnitude (JS engines overflow their call stack rendering nests beyond
depth ~10^4), so the fuel exhaustion branch is unreachable in the
modelled domain. -/
def jsString (v : Json) : String := jsStringAux 18446744073709551616 v

/-- How one `AuraRunner.execute()` call ended. -/
inductive ExecTag where
  | bufferEmpty
  | cacheHit
  | jsOffloaded
  | ran
  | unknownRuntime
  | threadException
deriving DecidableEq

/-- Observable outcome of one `AuraRunner.execute()` call: `result` is the
result value the call yields to the user — the value it stores and
prints on a fresh run, or replays on a cache hit (the live success print
of `dispatchBridge` appends a ` [<n>ms]` suffix to the same value);
`cache` is the store afterwards; `trace` the network attempts made. -/
structure ExecResult where
  tag : ExecTag
  result : Option Json
  cache : List (String × Json)
  trace : List Attempt

/-- `AuraRunner.checkCache(hash)`: IndexedDB `get`, `none` for absent. -/
def checkCache (cache : List (String × Json)) (h : String) : Option Json :=
  List.lookup h cache

/-- `AuraRunner.setCache(hash, result)`: IndexedDB `put` (overwrite),
realised as cons with first-match lookup. -/
def setCache (cache : List (String × Json)) (h : String) (v : Json) : List (String × Json) :=
  (h, v) :: cache

/-- The cache-hit test of `execute`: `checkCache` followed by the JS
truthiness guard `if (cachedResult)` — an absent entry and a cached falsy
value (notably the empty string) both fall through as misses. -/
def cacheProbe (cache : List (String × Json)) (h : String) : Option Json :=
  match checkCache cache h with
  | some v => if jsTruthy v then some v else none
  | none => none

/-- The fallback string `dispatchBridge` fabricates and caches when the
dispatcher fails or throws. -/
def bridgeFallback (lang : String) : String :=
  "[" ++ jsToUpper lang ++ "] Fallback Execution simulated."

/-- The summary string `dispatchBridge` builds from a successful result:
`[LANG] Exit:<exit> <out>` with `out = res.output ?? res.stdout ?? ''`
and `exit = res.exit_code ?? 0` (a `NormalizedResult` never carries a
`stdout` property, so that middle leg is always `undefined`). -/
def bridgeSummary (lang : String) (r : NormalizedResult) : String :=
  "[" ++ jsToUpper lang ++ "] Exit:" ++ jsString (nullishDefault r.exit_code (.num 0)) ++
    " " ++ jsString (nullishDefault r.output (.str ""))

/-- The pyodide WASM fallback inside `runPython`: the oracle
`py : String → Except String (Option String)` models
`pyodide.runPythonAsync` (and `loadPyodide` before it) — `.error` for a
throw, which escapes `runPython` into `execute`'s catch, `.ok v` for a
completed run whose rendered value is `v` (`none` = `undefined`, printed
and cached as `"Done"`). -/
def pyFallback (py : String → Except String (Option String)) (code h : String)
    (cache : List (String × Json)) (tr : List Attempt) : ExecResult :=
  match py code with
  | .error _ => ⟨.threadException, none, cache, tr⟩
  | .ok v =>
      let out := Json.str (v.getD "Done")
      ⟨.ran, some out, setCache cache h out, tr⟩

/-- `AuraRunner.runPython(code, hash)` (part 002, lines 142–166): try the
native python node through `AuraComm.dispatch`; on a truthy successful
result cache and print `res.output ?? res.stdout ?? ''`; on anything else
— dispatch returning a failed result, returning `undefined`, or throwing
(all absorbed by the surrounding `try`) — fall back to pyodide. -/
def runPythonModel (net : String → AttemptOutcome) (py : String → Except String (Option String))
    (code h : String) (cache : List (String × Json)) : ExecResult :=
  match dispatch auraNodes net "python" code with
  | (.returned (some r), tr) =>
      if r.success then
        let out := nullishDefault r.output (.str "")
        ⟨.ran, some out, setCache cache h out, tr⟩
      else pyFallback py code h cache tr
  | (_, tr) => pyFallback py code h cache tr

/-- `AuraRunner.dispatchBridge(code, lang, hash)` (part 002, lines
168–193): on a truthy successful result cache and print the summary
string; on a failed or `undefined` result, and likewise when `dispatch`
throws (the `catch` branch), cache and print the fabricated fallback
string. -/
def dispatchBridgeModel (net : String → AttemptOutcome) (lang code h : String)
    (cache : List (String × Json)) : ExecResult :=
  match dispatch auraNodes net lang code with
  | (.returned (some r), tr) =>
      if r.success then
        let summary := Json.str (bridgeSummary lang r)
        ⟨.ran, some summary, setCache cache h summary, tr⟩
      else
        let fb := Json.str (bridgeFallback lang)
        ⟨.ran, some fb, setCache cache h fb, tr⟩
  | (_, tr) =>
      let fb := Json.str (bridgeFallback lang)
      ⟨.ran, some fb, setCache cache h fb, tr⟩

/-- `AuraRunner.execute()` (part 002, lines 85–120), with the DOM reads
(`engine`, `code`) as parameters and the IndexedDB store passed in and
returned. Empty (trimmed) source returns before touching the cache; then
the memoization probe under `hash(code + engine)`; on a miss the engine
switch runs: `javascript` is posted to the worker (nothing is cached),
`python` and the bridge engines go through the models above, and an
unknown engine prints `Runtime not found` without caching. -/
def executeModel (net : String → AttemptOutcome) (py : String → Except String (Option String))
    (engine code : String) (cache : List (String × Json)) : ExecResult :=
  if jsTrim code = "" then ⟨.bufferEmpty, none, cache, []⟩
  else
    match cacheProbe cache (auraHash (code ++ engine)) with
    | some v => ⟨.cacheHit, some v, cache, []⟩
    | none =>
        match engine with
        | "javascript" => ⟨.jsOffloaded, none, cache, []⟩
        | "python" => runPythonModel net py code (auraHash (code ++ engine)) cache
        | "cpp" => dispatchBridgeModel net engine code (auraHash (code ++ engine)) cache
        | "rust" => dispatchBridgeModel net engine code (auraHash (code ++ engine)) cache
        | _ => ⟨.unknownRuntime, none, cache, []⟩

/-- Prefix test on character lists. -/
def listPre : List Char → List Char → Bool
  | [], _ => true
  | _ :: _, [] => false
  | a :: as, b :: bs => a == b && listPre as bs

/-- Substring occurrence test on character lists. -/
def strContainsList : List Char → List Char → Bool
  | [], needle => listPre needle []
  | h :: t, needle => listPre needle (h :: t) || strContainsList t needle

/-- Whether `needle` occurs as a contiguous substring of `hay`. -/
def strContains (hay needle : String) : Bool := strContainsList hay.data needle.data

/-- A network in which every candidate attempt fails at the transport
layer (connection refused on every port). -/
def alwaysRefuse : String → AttemptOutcome := fun _ => .fail "connect ECONNREFUSED"

/-- A network in which every candidate responds with the standardized
body `{stdout: "1", exit_code: 0}`. -/
def allOkNet : String → AttemptOutcome := fun _ =>
  .ok (.obj [("stdout", .str "1"), ("exit_code", .num 0)])

/-- A pyodide oracle that throws (WASM runtime unavailable). -/
def noPy : String → Except String (Option String) := fun _ => .error "pyodide unavailable"

/-- A field read succeeds only on JSON objects. -/
theorem getField_objectLike (d : Json) (k : String) (v : Json)
    (h : getField d k = some v) : isObjectLike d = true := by
  cases d <;> simp [getField, isObjectLike] at h ⊢

/-- On any object-like body the normalizer returns a result (one of its
three branches). -/
theorem handleResponse_total_of_objectLike (b : Json) (h : isObjectLike b = true) :
    ∃ r, handleResponse b = some r := by
  unfold handleResponse
  rw [h]
  simp only [if_true]
  split
  · exact ⟨_, rfl⟩
  split
  · exact ⟨_, rfl⟩
  · exact ⟨_, rfl⟩

/-- The deployed table resolves every engine name outside the inherited
`Object.prototype` property names to some port array (an own entry or the
python fallback); at an inherited name it resolves to the inherited
member instead. -/
theorem resolvePorts_auraNodes_ports (lang : String) (hp : lang ∉ objectProtoKeys) :
    ∃ ps, resolvePorts auraNodes lang = some (.ports ps) := by
  by_cases h1 : lang = "cpp"
  · exact ⟨(List.range 10).map (fun i => 56000 + i), by simp [resolvePorts, auraNodes, h1]⟩
  by_cases h2 : lang = "python"
  · exact ⟨(List.range 10).map (fun i => 55000 + i), by simp [resolvePorts, auraNodes, h1, h2]⟩
  by_cases h3 : lang = "rust"
  · exact ⟨(List.range 10).map (fun i => 58000 + i), by simp [resolvePorts, auraNodes, h1, h2, h3]⟩
  · exact ⟨(List.range 10).map (fun i => 55000 + i),
      by simp [resolvePorts, auraNodes, h1, h2, h3, hp]⟩

/-- `btoa` succeeds on any string of Latin-1 code units. -/
theorem btoa_isSome_of_latin1 (s : String) (h : ∀ c ∈ s.data, c.toNat ≤ 255) :
    ∃ e, btoa s = some e := by
  have hall : s.data.all (fun c => decide (c.toNat ≤ 255)) = true := by
    simp only [List.all_eq_true, decide_eq_true_eq]
    exact h
  exact ⟨String.mk (b64Encode (s.data.map Char.toNat)), by simp [btoa, hall]⟩

/-- When every transport success in a net carries an object-like body,
the candidate loop always produces a result value. -/
theorem dispatchLoop_returns_some (net : String → AttemptOutcome) (lang path : String)
    (hbodies : ∀ url b, net url = .ok b → isObjectLike b = true) :
    ∀ (ports : List Nat) (a : Nat), ∃ r, (dispatchLoop net lang path ports a).1 = some r := by
  intro ports
  induction ports with
  | nil => intro a; exact ⟨failAggregate lang, rfl⟩
  | cons p rest ih =>
      intro a
      cases hnp : net (urlOf p path) with
      | ok body =>
          obtain ⟨r, hr⟩ := handleResponse_total_of_objectLike body (hbodies _ _ hnp)
          exact ⟨r, by simp [dispatchLoop, hnp, hr]⟩
      | fail m =>
          obtain ⟨r, hr⟩ := ih (a + 1)
          exact ⟨r, by simp [dispatchLoop, hnp, hr]⟩

/-- When every attempt fails, the candidate loop returns the aggregated
failure, makes exactly one attempt per port, and gives attempt `i`
(0-based, after `a` earlier attempts) the timeout `4000 + (a+i+1)*500`. -/
theorem dispatchLoop_allFail (net : String → AttemptOutcome) (lang path : String)
    (hfail : ∀ url, (net url).isOk = false) :
    ∀ (ports : List Nat) (a : Nat),
      (dispatchLoop net lang path ports a).1 = some (failAggregate lang) ∧
      (dispatchLoop net lang path ports a).2.length = ports.length ∧
      ∀ i, i < ports.length →
        ((dispatchLoop net lang path ports a).2.getD i ⟨"", 0⟩).timeoutMs =
          4000 + (a + i + 1) * 500 := by
  intro ports
  induction ports with
  | nil => exact fun a => ⟨rfl, rfl, fun i hi => absurd hi (by simp)⟩
  | cons p rest ih =>
      intro a
      have hm : ∃ m, net (urlOf p path) = .fail m := by
        cases h : net (urlOf p path) with
        | ok b =>
            have hb := hfail (urlOf p path)
            rw [h] at hb
            exact absurd hb (by simp [AttemptOutcome.isOk])
        | fail m => exact ⟨m, rfl⟩
      obtain ⟨m, hm⟩ := hm
      obtain ⟨ih1, ih2, ih3⟩ := ih (a + 1)
      refine ⟨by simp [dispatchLoop, hm, ih1], by simp [dispatchLoop, hm, ih2], ?_⟩
      intro i hi
      cases i with
      | zero => simp [dispatchLoop, hm]
      | succ j =>
          have hj : j < rest.length := by simpa using hi
          have h3 := ih3 j hj
          have harith : a + (j + 1) + 1 = a + 1 + j + 1 := by omega
          rw [harith]
          simpa [dispatchLoop, hm] using h3

/-- When the first `k` candidates fail and candidate `k` succeeds with
body `body`, the loop returns `handleResponse body` after exactly `k+1`
attempts. -/
theorem dispatchLoop_firstOk (net : String → AttemptOutcome) (lang path : String) :
    ∀ (ports : List Nat) (a k : Nat) (body : Json),
      k < ports.length →
      (∀ i, i < k → (net (urlOf (ports.getD i 0) path)).isOk = false) →
      net (urlOf (ports.getD k 0) path) = .ok body →
      (dispatchLoop net lang path ports a).1 = handleResponse body ∧
      (dispatchLoop net lang path ports a).2.length = k + 1 := by
  intro ports
  induction ports with
  | nil => intro a k body hk; exact absurd hk (by simp)
  | cons p rest ih =>
      intro a k body hk hfails hok
      cases k with
      | zero =>
          have h0 : net (urlOf p path) = .ok body := by simpa using hok
          exact ⟨by simp [dispatchLoop, h0], by simp [dispatchLoop, h0]⟩
      | succ j =>
          have h0 : (net (urlOf p path)).isOk = false := by
            simpa using hfails 0 (Nat.succ_pos j)
          have hm : ∃ m, net (urlOf p path) = .fail m := by
            cases h : net (urlOf p path) with
            | ok b =>
                rw [h] at h0
                exact absurd h0 (by simp [AttemptOutcome.isOk])
            | fail m => exact ⟨m, rfl⟩
          obtain ⟨m, hm⟩ := hm
          have hj : j < rest.length := by simpa using hk
          have hfr : ∀ i, i < j → (net (urlOf (rest.getD i 0) path)).isOk = false := by
            intro i hi
            simpa using hfails (i + 1) (by omega)
          have hokr : net (urlOf (rest.getD j 0) path) = .ok body := by simpa using hok
          obtain ⟨r1, r2⟩ := ih (a + 1) j body hj hfr hokr
          exact ⟨by simp [dispatchLoop, hm, r1], by simp [dispatchLoop, hm, r2]⟩

/-- A network whose only response body is the bare JSON number `7`
(parseable, but not an object). -/
def numberBodyNet : String → AttemptOutcome := fun _ => .ok (Json.num 7)

/-- C2, counterexample: `dispatch` is not total as claimed. (1) On the
source `"π"` (a code unit above 0xFF) the `btoa` call in the payload
construction throws `InvalidCharacterError` outside every `try`, so the
exception escapes `dispatch`. (2) On a transport success whose parseable
body is not an object, `handleResponse` runs off the end and `dispatch`
returns `undefined` instead of a well-formed result. (3) On an engine
name that is an inherited `Object.prototype` property, such as
`toString`, the table read yields a truthy non-iterable member — the
python fallback is not taken — and the candidate loop's `for…of` head
throws a `TypeError` before any network attempt. -/
theorem dispatch_throws_counterexample :
    (dispatch auraNodes alwaysRefuse "python" "π").1 = .thrown "InvalidCharacterError" ∧
    (dispatch auraNodes numberBodyNet "python" "x").1 = .returned none ∧
    dispatch auraNodes alwaysRefuse "toString" "x" = (.thrown "ports is not iterable", []) :=
  ⟨rfl, rfl, rfl⟩

/-- C2, amended: for every engine name that is not an inherited
`Object.prototype` property name, and every source string whose code
units are all ≤ 0xFF (so `btoa` succeeds), if every transport-successful
candidate body is object-like, then `dispatch` throws nothing and returns
a well-formed result value: connection errors, timeouts, non-2xx statuses
and body parse failures are all absorbed by the candidate loop. -/
theorem dispatch_no_throw_latin1_object_bodies (net : String → AttemptOutcome)
    (lang source : String)
    (hproto : lang ∉ objectProtoKeys)
    (hsrc : ∀ c ∈ source.data, c.toNat ≤ 255)
    (hbodies : ∀ url b, net url = .ok b → isObjectLike b = true) :
    ∃ r : NormalizedResult, (dispatch auraNodes net lang source).1 = .returned (some r) := by
  obtain ⟨e, he⟩ := btoa_isSome_of_latin1 source hsrc
  obtain ⟨ps, hps⟩ := resolvePorts_auraNodes_ports lang hproto
  obtain ⟨r, hr⟩ := dispatchLoop_returns_some net lang (enginePath lang) hbodies ps 0
  exact ⟨r, by simp [dispatch, he, hps, hr]⟩

/-- C2, witness: the amended totality theorem applied to the deployed
table, the python engine, a Latin-1 source, and an all-ok network. -/
theorem dispatch_no_throw_latin1_object_bodies_witness :
    ∃ r : NormalizedResult,
      (dispatch auraNodes allOkNet "python" "print(1)").1 = .returned (some r) :=
  dispatch_no_throw_latin1_object_bodies allOkNet "python" "print(1)" (by decide) (by decide)
    (fun url b h => by
      have h' : AttemptOutcome.ok
          (Json.obj [("stdout", Json.str "1"), ("exit_code", Json.num 0)]) = .ok b := h
      injection h' with hb
      rw [← hb]
      rfl)

/-- C3, counterexample: the normalizer is not total on raw bodies — on a
non-object body (a number, a string, `null`) `handleResponse` runs off
the end of the `data && typeof data === 'object'` guard and returns
`undefined` (no result), rather than a failed result of any kind. -/
theorem handleResponse_non_object_counterexample :
    handleResponse (Json.num 42) = none ∧
    handleResponse (Json.str "ok") = none ∧
    handleResponse Json.null = none :=
  ⟨rfl, rfl, rfl⟩

/-- C3, amended: the normalizer is total only on object-like bodies: any
object or array matching neither the standardized shape (`stdout` +
`exit_code`) nor the legacy `status === "success"` shape yields a failed
result whose error is `data.error || data.message || 'Unknown node
response'` (the code's unrecognized-shape fallback); a non-object body
yields no result at all (`undefined`). -/
theorem handleResponse_fallback_shapes (data : Json) :
    (isObjectLike data = false → handleResponse data = none) ∧
    (isObjectLike data = true →
      (hasField data "stdout" && hasField data "exit_code") = false →
      isStatusSuccess (getField data "status") = false →
      handleResponse data =
        some { success := false,
               error := some (jsOrElse (getField data "error")
                 (jsOrElse (getField data "message") (.str "Unknown node response"))) }) := by
  constructor
  · intro h
    simp [handleResponse, h]
  · intro h h1 h2
    simp [handleResponse, h, h1, h2]

/-- C3, witness: the spec's own probe `{ foo: 1 }` lands in the fallback
branch with the `Unknown node response` error, and the number `42` gets
no result. -/
theorem handleResponse_fallback_shapes_witness :
    handleResponse (Json.obj [("foo", Json.num 1)]) =
      some { success := false, error := some (Json.str "Unknown node response") } ∧
    handleResponse (Json.num 42) = none := by
  constructor
  · exact (handleResponse_fallback_shapes (Json.obj [("foo", Json.num 1)])).2 rfl rfl rfl
  · exact (handleResponse_fallback_shapes (Json.num 42)).1 rfl

/-- C7 (confirmed): every body carrying a `stdout` field and a JSON-number
`exit_code` field is normalized by the standardized branch — regardless
of whatever `status`, `error` or `message` fields are also present (the
branch is tested first, so this shape takes priority) — with success
exactly when the exit code is zero, and with `latency_ms` defaulting to
`0` when the field is absent. -/
theorem handleResponse_shape_a_priority (data out : Json) (n : Int)
    (hstdout : getField data "stdout" = some out)
    (hexit : getField data "exit_code" = some (Json.num n)) :
    handleResponse data =
      some { success := n == 0,
             output := some out,
             exit_code := some (Json.num n),
             latency_ms := some (nullishDefault (getField data "latency_ms") (Json.num 0)),
             error := none } ∧
    ((n == 0) = true ↔ n = 0) ∧
    (getField data "latency_ms" = none →
      nullishDefault (getField data "latency_ms") (Json.num 0) = Json.num 0) := by
  have hobj : isObjectLike data = true := getField_objectLike data "stdout" out hstdout
  refine ⟨?_, beq_iff_eq, fun h => by rw [h]; rfl⟩
  simp [handleResponse, hobj, hasField, hstdout, hexit, jsNumberOpt, jsNumber]

/-- C7, witness: a body carrying shape-(a) fields with `exit_code: 1`
alongside a legacy `status: "success"` flag and an `error` field is
normalized by the standardized branch: failure (exit 1), no error copied,
latency defaulted — the legacy and error shapes are ignored. -/
theorem handleResponse_shape_a_priority_witness :
    handleResponse (Json.obj [("stdout", Json.str "x"), ("exit_code", Json.num 1),
        ("status", Json.str "success"), ("error", Json.str "boom")]) =
      some { success := false, output := some (Json.str "x"),
             exit_code := some (Json.num 1), latency_ms := some (Json.num 0),
             error := none } :=
  (handleResponse_shape_a_priority
    (Json.obj [("stdout", Json.str "x"), ("exit_code", Json.num 1),
      ("status", Json.str "success"), ("error", Json.str "boom")])
    (Json.str "x") 1 rfl rfl).1

/-- A variant port table with only three python candidates (all else as
deployed), used to show the aggregate error does not reflect the
candidate count. -/
def threePortTable : String → Option NodeEntry := fun lang =>
  if lang = "python" then some (.ports [55000, 55001, 55002]) else auraNodes lang

/-- C4, counterexample: when all candidates fail, `dispatch` does make
exactly N attempts and return a single aggregated failure, but the
returned error — `No available python node ports` — names only the
engine, not the count of endpoints exhausted: the identical error value
is produced whether 10 or 3 candidates were exhausted, and the decimal
count nowhere occurs in it (the count appears only in the `Terminal`
log line, which is not part of the returned result). -/
theorem aggregate_error_count_counterexample :
    (dispatch auraNodes alwaysRefuse "python" "print(1)").1 =
      .returned (some (failAggregate "python")) ∧
    (dispatch auraNodes alwaysRefuse "python" "print(1)").2.length = 10 ∧
    (dispatch threePortTable alwaysRefuse "python" "print(1)").1 =
      (dispatch auraNodes alwaysRefuse "python" "print(1)").1 ∧
    (dispatch threePortTable alwaysRefuse "python" "print(1)").2.length = 3 ∧
    (failAggregate "python").error = some (Json.str "No available python node ports") ∧
    strContains "No available python node ports" "10" = false :=
  ⟨rfl, rfl, rfl, rfl, rfl, by decide⟩

/-- C4, amended: if `btoa` succeeds on the source and every attempt
fails, `dispatch` returns the single aggregated failed result (whose
error names the engine) after exactly one attempt per resolved
candidate, attempt `i` (0-based) carrying the timeout
`4000 + (i+1)*500` — linear growth over the 4000 ms base, hence never
below it; the count of exhausted endpoints is not part of the error. -/
theorem dispatch_all_candidates_fail (net : String → AttemptOutcome) (lang source : String)
    (ports : List Nat)
    (hsrc : ∀ c ∈ source.data, c.toNat ≤ 255)
    (hports : resolvePorts auraNodes lang = some (.ports ports))
    (hfail : ∀ url, (net url).isOk = false) :
    (dispatch auraNodes net lang source).1 = .returned (some (failAggregate lang)) ∧
    (dispatch auraNodes net lang source).2.length = ports.length ∧
    ∀ i, i < ports.length →
      ((dispatch auraNodes net lang source).2.getD i ⟨"", 0⟩).timeoutMs = 4000 + (i + 1) * 500 ∧
      4000 ≤ ((dispatch auraNodes net lang source).2.getD i ⟨"", 0⟩).timeoutMs := by
  obtain ⟨e, he⟩ := btoa_isSome_of_latin1 source hsrc
  obtain ⟨l1, l2, l3⟩ := dispatchLoop_allFail net lang (enginePath lang) hfail ports 0
  refine ⟨by simp [dispatch, he, hports, l1], by simp [dispatch, he, hports, l2],
    fun i hi => ?_⟩
  have h3 := l3 i hi
  have heq : ((dispatch auraNodes net lang source).2.getD i ⟨"", 0⟩).timeoutMs =
      4000 + (i + 1) * 500 := by
    simpa [dispatch, he, hports] using h3
  exact ⟨heq, by rw [heq]; omega⟩

/-- C4, witness: the amended theorem at the deployed python candidate
list with a network refusing every connection. -/
theorem dispatch_all_candidates_fail_witness :
    (dispatch auraNodes alwaysRefuse "python" "print(1)").1 =
      .returned (some (failAggregate "python")) :=
  (dispatch_all_candidates_fail alwaysRefuse "python" "print(1)"
    ((List.range 10).map (fun i => 55000 + i)) (by decide) rfl (fun _ => rfl)).1

/-- C5 (confirmed): if `btoa` succeeds on the source and the `k`-th
resolved candidate (0-based) is the first to yield a transport success
with a parseable body, `dispatch` immediately returns the normalized
result of that body and has contacted exactly the first `k+1` candidates
— no candidate after the `k`-th; in particular, a first-candidate
success means exactly one attempt. -/
theorem dispatch_first_success_wins (net : String → AttemptOutcome) (lang source : String)
    (ports : List Nat) (k : Nat) (body : Json)
    (hsrc : ∀ c ∈ source.data, c.toNat ≤ 255)
    (hports : resolvePorts auraNodes lang = some (.ports ports))
    (hk : k < ports.length)
    (hfails : ∀ i, i < k → (net (urlOf (ports.getD i 0) (enginePath lang))).isOk = false)
    (hok : net (urlOf (ports.getD k 0) (enginePath lang)) = .ok body) :
    (dispatch auraNodes net lang source).1 = .returned (handleResponse body) ∧
    (dispatch auraNodes net lang source).2.length = k + 1 := by
  obtain ⟨e, he⟩ := btoa_isSome_of_latin1 source hsrc
  obtain ⟨r1, r2⟩ := dispatchLoop_firstOk net lang (enginePath lang) ports 0 k body hk hfails hok
  exact ⟨by simp [dispatch, he, hports, r1], by simp [dispatch, he, hports, r2]⟩

/-- A network where only port 55001 answers (with a standardized body)
and every other port refuses the connection. -/
def secondPortNet : String → AttemptOutcome := fun url =>
  if url = "http://localhost:55001/execute" then
    .ok (.obj [("stdout", .str "1"), ("exit_code", .num 0)])
  else .fail "connect ECONNREFUSED"

/-- C5, witness: with only the second python candidate listening, the
call stops after exactly two attempts. -/
theorem dispatch_first_success_wins_witness :
    (dispatch auraNodes secondPortNet "python" "print(1)").2.length = 2 :=
  (dispatch_first_success_wins secondPortNet "python" "print(1)"
    ((List.range 10).map (fun i => 55000 + i)) 1
    (Json.obj [("stdout", Json.str "1"), ("exit_code", Json.num 0)])
    (by decide) rfl (by decide) (by decide) rfl).2

/-- A variant port table mapping python to an empty candidate array
(all else as deployed); with the deployed `auraNodes` table the empty
case is unreachable — every engine resolves to 10 ports. -/
def emptyPythonTable : String → Option NodeEntry := fun lang =>
  if lang = "python" then some (.ports []) else auraNodes lang

/-- C6, counterexample: with an empty candidate list `dispatch` does
return a failed result after zero attempts, but its error is not a
distinct `NoEndpointsConfigured` kind: it is the very same aggregated
`No available python node ports` value produced when all ten deployed
candidates fail, so the two conditions are indistinguishable to the
caller; the string `NoEndpointsConfigured` occurs nowhere in it. -/
theorem empty_candidates_error_kind_counterexample :
    dispatch emptyPythonTable alwaysRefuse "python" "x" =
      (.returned (some (failAggregate "python")), []) ∧
    (dispatch emptyPythonTable alwaysRefuse "python" "x").1 =
      (dispatch auraNodes alwaysRefuse "python" "x").1 ∧
    (dispatch auraNodes alwaysRefuse "python" "x").2.length = 10 ∧
    strContains "No available python node ports" "NoEndpointsConfigured" = false :=
  ⟨rfl, rfl, rfl, by decide⟩

/-- C6, amended: whenever the port table resolves an engine to an empty
candidate list, `dispatch` (given `btoa` succeeds on the source) returns
immediately — zero network attempts — with the aggregated failure value
`No available <lang> node ports`, the same value the exhausted-candidates
path produces; no distinct `NoEndpointsConfigured` kind exists in the
code, and the deployed table never yields an empty list. -/
theorem dispatch_empty_candidates (table : String → Option NodeEntry)
    (net : String → AttemptOutcome) (lang source : String)
    (hsrc : ∀ c ∈ source.data, c.toNat ≤ 255)
    (hempty : resolvePorts table lang = some (.ports [])) :
    dispatch table net lang source = (.returned (some (failAggregate lang)), []) := by
  obtain ⟨e, he⟩ := btoa_isSome_of_latin1 source hsrc
  simp [dispatch, he, hempty, dispatchLoop]

/-- C6, witness: the amended theorem at the empty-python table. -/
theorem dispatch_empty_candidates_witness :
    dispatch emptyPythonTable allOkNet "python" "x" =
      (.returned (some (failAggregate "python")), []) :=
  dispatch_empty_candidates emptyPythonTable allOkNet "python" "x" (by decide) rfl

/-- C8, counterexample: `toString` is not a configured engine, yet the
resolver does not fall back to the python candidate list for it: the
`nodes` object literal inherits `Object.prototype.toString`, a truthy
non-array, so `nodes["toString"] || nodes.python` keeps the inherited
member, and `dispatch` throws a `TypeError` at the `for…of` head — it
fails instead of probing python's ports — refuting "for every unknown
engine name it yields the default (python) engine's candidate list
rather than failing". -/
theorem unknown_engine_proto_key_counterexample :
    ("toString" ∉ (["cpp", "python", "rust"] : List String)) ∧
    resolvePorts auraNodes "toString" = some NodeEntry.protoMember ∧
    (∀ ps : List Nat, NodeEntry.protoMember ≠ NodeEntry.ports ps) ∧
    dispatch auraNodes alwaysRefuse "toString" "print(1)" =
      (.thrown "ports is not iterable", []) :=
  ⟨by decide, rfl, fun ps h => NodeEntry.noConfusion h, rfl⟩

/-- C8, amended: for each configured engine the resolver yields a fixed,
non-empty, ordered list of exactly 10 contiguous ports (cpp from 56000,
python from 55000, rust from 58000) with request path `/execute` for
python and `/bridge` otherwise; an unknown engine name falls back to the
default python port list only when it is not one of the twelve property
names inherited from `Object.prototype` — at an inherited name (e.g.
`toString`) the table read yields the truthy inherited member and
`dispatch` throws a `TypeError` instead of probing. -/
theorem resolver_candidates_spec (lang : String) :
    (lang ∉ objectProtoKeys →
      ∃ ps : List Nat, resolvePorts auraNodes lang = some (.ports ps) ∧
        ps.length = 10 ∧ ps ≠ [] ∧
        (∃ base, ∀ i, i < 10 → ps.getD i 0 = base + i) ∧
        ((lang ≠ "cpp" ∧ lang ≠ "python" ∧ lang ≠ "rust") →
          resolvePorts auraNodes lang = resolvePorts auraNodes "python")) ∧
    (lang ∈ objectProtoKeys →
      resolvePorts auraNodes lang = some .protoMember ∧
      ∀ (net : String → AttemptOutcome) (source e : String), btoa source = some e →
        dispatch auraNodes net lang source = (.thrown "ports is not iterable", [])) ∧
    enginePath lang = (if lang = "python" then "/execute" else "/bridge") := by
  have hcpp : "cpp" ∉ objectProtoKeys := by decide
  have hpy : "python" ∉ objectProtoKeys := by decide
  have hru : "rust" ∉ objectProtoKeys := by decide
  refine ⟨fun hp => ?_, fun hp => ?_, rfl⟩
  · by_cases h1 : lang = "cpp"
    · subst h1
      exact ⟨(List.range 10).map (fun i => 56000 + i), rfl, by decide, by decide,
        ⟨56000, by decide⟩, fun h => absurd rfl h.1⟩
    by_cases h2 : lang = "python"
    · subst h2
      exact ⟨(List.range 10).map (fun i => 55000 + i), by simp [resolvePorts, auraNodes],
        by decide, by decide, ⟨55000, by decide⟩, fun h => absurd rfl h.2.1⟩
    by_cases h3 : lang = "rust"
    · subst h3
      exact ⟨(List.range 10).map (fun i => 58000 + i), by simp [resolvePorts, auraNodes],
        by decide, by decide, ⟨58000, by decide⟩, fun h => absurd rfl h.2.2⟩
    · have hres : resolvePorts auraNodes lang =
          some (.ports ((List.range 10).map (fun i => 55000 + i))) := by
        simp [resolvePorts, auraNodes, h1, h2, h3, hp]
      refine ⟨(List.range 10).map (fun i => 55000 + i), hres, by decide, by decide,
        ⟨55000, by decide⟩, fun _ => ?_⟩
      rw [hres]
      rfl
  · have h1 : lang ≠ "cpp" := fun h => hcpp (h ▸ hp)
    have h2 : lang ≠ "python" := fun h => hpy (h ▸ hp)
    have h3 : lang ≠ "rust" := fun h => hru (h ▸ hp)
    have hres : resolvePorts auraNodes lang = some .protoMember := by
      simp [resolvePorts, auraNodes, h1, h2, h3, hp]
    refine ⟨hres, fun net source e he => ?_⟩
    simp [dispatch, he, hres]

/-- C8, witness: at the unconfigured engine name `ruby` the resolver
falls back to the python list, while at the inherited name `toString`
the resolver yields the inherited member and `dispatch` throws. -/
theorem resolver_candidates_spec_witness :
    (∃ ps : List Nat, resolvePorts auraNodes "ruby" = some (.ports ps) ∧
      ps.length = 10 ∧ ps ≠ [] ∧
      (∃ base, ∀ i, i < 10 → ps.getD i 0 = base + i) ∧
      (("ruby" ≠ "cpp" ∧ "ruby" ≠ "python" ∧ "ruby" ≠ "rust") →
        resolvePorts auraNodes "ruby" = resolvePorts auraNodes "python")) ∧
    resolvePorts auraNodes "toString" = some NodeEntry.protoMember ∧
    dispatch auraNodes allOkNet "toString" "x" = (.thrown "ports is not iterable", []) :=
  ⟨(resolver_candidates_spec "ruby").1 (by decide),
   ((resolver_candidates_spec "toString").2.1 (by decide)).1,
   ((resolver_candidates_spec "toString").2.1 (by decide)).2 allOkNet "x" _ rfl⟩

/-- On a non-empty source whose hash finds a truthy cached value, one
`execute` call is a pure cache hit: it replays the stored value, leaves
the store untouched, and makes no network attempt. -/
theorem executeModel_hit (net : String → AttemptOutcome)
    (py : String → Except String (Option String)) (engine code : String)
    (c : List (String × Json)) (v : Json)
    (htrim : ¬ jsTrim code = "")
    (hprobe : cacheProbe c (auraHash (code ++ engine)) = some v) :
    executeModel net py engine code c = ⟨.cacheHit, some v, c, []⟩ := by
  unfold executeModel
  rw [if_neg htrim, hprobe]

/-- A network whose standardized responses carry an empty `stdout`. -/
def emptyStdoutNet : String → AttemptOutcome := fun _ =>
  .ok (.obj [("stdout", .str ""), ("exit_code", .num 0)])

/-- C1, counterexample: two sequential `execute` calls with identical
`(source, engine)` and no intervening clear, where the backend's
successful response has empty `stdout`. The first call stores the empty
string under the key, but the truthiness guard `if (cachedResult)` treats
the cached `""` as a miss, so the second call dispatches again — one
network attempt instead of the promised zero. -/
theorem cache_empty_string_retry_counterexample :
    List.lookup (auraHash ("print()" ++ "python"))
        (executeModel emptyStdoutNet noPy "python" "print()" []).cache = some (Json.str "") ∧
    (executeModel emptyStdoutNet noPy "python" "print()"
        ((executeModel emptyStdoutNet noPy "python" "print()" []).cache)).trace.length = 1 :=
  ⟨rfl, rfl⟩

/-- C1, amended: whenever a first `execute` call on a non-empty source
leaves a truthy value (in particular, any non-empty output string) stored
under the key `hash(source ++ engine)`, a second call with the identical
`(source, engine)` replays exactly that stored value, changes nothing,
and makes no network attempt. (The key is deterministic, so both calls
compute the same key.) What fails of the original claim: a cached empty
string is falsy and is re-dispatched, and the `javascript` engine never
stores at all. -/
theorem execute_cache_hit_second_call (net : String → AttemptOutcome)
    (py : String → Except String (Option String)) (engine code : String)
    (c0 : List (String × Json)) (v : Json)
    (htrim : ¬ jsTrim code = "")
    (hstore : List.lookup (auraHash (code ++ engine))
      (executeModel net py engine code c0).cache = some v)
    (htruthy : jsTruthy v = true) :
    executeModel net py engine code ((executeModel net py engine code c0).cache) =
      ⟨.cacheHit, some v, (executeModel net py engine code c0).cache, []⟩ := by
  have hprobe : cacheProbe ((executeModel net py engine code c0).cache)
      (auraHash (code ++ engine)) = some v := by
    simp [cacheProbe, checkCache, hstore, htruthy]
  exact executeModel_hit net py engine code _ v htrim hprobe

/-- C1, witness: the amended theorem on the python engine with a backend
answering `{stdout: "1", exit_code: 0}` — the second call replays the
cached `"1"` with an empty attempt trace. -/
theorem execute_cache_hit_second_call_witness :
    executeModel allOkNet noPy "python" "print(1)"
        ((executeModel allOkNet noPy "python" "print(1)" []).cache) =
      ⟨.cacheHit, some (Json.str "1"),
        (executeModel allOkNet noPy "python" "print(1)" []).cache, []⟩ :=
  execute_cache_hit_second_call allOkNet noPy "python" "print(1)" [] (Json.str "1")
    (by decide) rfl rfl

/-- A network whose responses carry only an `error` field (an error-shape
body), normalized to a failed result carrying `boom`. -/
def errorBodyNet : String → AttemptOutcome := fun _ => .ok (.obj [("error", .str "boom")])

/-- C9, counterexample: on a cache miss with a failing dispatcher, what
`dispatchBridge` stores is not the result returned by the dispatcher. Two
runs whose dispatcher results differ — an all-ports-exhausted aggregate
versus a normalized `boom` error body — both store the identical
fabricated string `[CPP] Fallback Execution simulated.`, which carries
none of either result's fields. -/
theorem bridge_stores_fallback_counterexample :
    (executeModel alwaysRefuse noPy "cpp" "return 0" []).cache =
      [(auraHash ("return 0" ++ "cpp"), Json.str "[CPP] Fallback Execution simulated.")] ∧
    (executeModel errorBodyNet noPy "cpp" "return 0" []).cache =
      [(auraHash ("return 0" ++ "cpp"), Json.str "[CPP] Fallback Execution simulated.")] ∧
    (dispatch auraNodes alwaysRefuse "cpp" "return 0").1 =
      .returned (some (failAggregate "cpp")) ∧
    (dispatch auraNodes errorBodyNet "cpp" "return 0").1 =
      .returned (some { success := false, error := some (Json.str "boom") }) ∧
    (failAggregate "cpp").error = some (Json.str "No available cpp node ports") ∧
    "No available cpp node ports" ≠ "boom" :=
  ⟨rfl, rfl, rfl, rfl, rfl, by decide⟩

/-- C9, amended: on a cache miss for the bridge engines (cpp/rust),
`execute` stores a string under the key in every dispatcher outcome —
the `[LANG] Exit:<exit> <out>` summary when the dispatcher returns a
truthy successful result, and the fixed `[LANG] Fallback Execution
simulated.` string when it returns a failed result, returns `undefined`,
or throws — and yields that same stored string as the call's result.
(What fails of the original claim: the stored value is a rendering or a
fabricated fallback, never the dispatcher's `NormalizedResult` itself;
on the python path a dispatcher failure is not cached at all — the WASM
fallback's output is cached instead.) -/
theorem bridge_caches_both_outcomes (net : String → AttemptOutcome)
    (py : String → Except String (Option String)) (engine code : String)
    (cache : List (String × Json))
    (heng : engine = "cpp" ∨ engine = "rust")
    (htrim : ¬ jsTrim code = "")
    (hmiss : cacheProbe cache (auraHash (code ++ engine)) = none) :
    ∃ stored : String,
      executeModel net py engine code cache =
        ⟨.ran, some (Json.str stored),
          setCache cache (auraHash (code ++ engine)) (Json.str stored),
          (dispatch auraNodes net engine code).2⟩ ∧
      stored = (match (dispatch auraNodes net engine code).1 with
        | .returned (some r) =>
            if r.success then bridgeSummary engine r else bridgeFallback engine
        | _ => bridgeFallback engine) := by
  have hexec : executeModel net py engine code cache =
      dispatchBridgeModel net engine code (auraHash (code ++ engine)) cache := by
    rcases heng with h | h <;> subst h <;> (unfold executeModel; rw [if_neg htrim, hmiss]; rfl)
  rw [hexec]
  rcases hd : dispatch auraNodes net engine code with ⟨out, tr⟩
  cases out with
  | thrown m =>
      exact ⟨bridgeFallback engine, by simp [dispatchBridgeModel, hd], by simp [hd]⟩
  | returned ro =>
      cases ro with
      | none =>
          exact ⟨bridgeFallback engine, by simp [dispatchBridgeModel, hd], by simp [hd]⟩
      | some r =>
          cases hs : r.success with
          | true =>
              exact ⟨bridgeSummary engine r, by simp [dispatchBridgeModel, hd, hs],
                by simp [hd, hs]⟩
          | false =>
              exact ⟨bridgeFallback engine, by simp [dispatchBridgeModel, hd, hs],
                by simp [hd, hs]⟩

/-- C9, witness: the amended theorem on a cpp run over an all-ok network
(the stored string is the summary `[CPP] Exit:0 1`). -/
theorem bridge_caches_both_outcomes_witness :
    ∃ stored : String,
      executeModel allOkNet noPy "cpp" "return 0" [] =
        ⟨.ran, some (Json.str stored),
          setCache [] (auraHash ("return 0" ++ "cpp")) (Json.str stored),
          (dispatch auraNodes allOkNet "cpp" "return 0").2⟩ ∧
      stored = (match (dispatch auraNodes allOkNet "cpp" "return 0").1 with
        | .returned (some r) =>
            if r.success then bridgeSummary "cpp" r else bridgeFallback "cpp"
        | _ => bridgeFallback "cpp") :=
  bridge_caches_both_outcomes allOkNet noPy "cpp" "return 0" [] (Or.inl rfl) (by decide) rfl

/-- A network whose standardized responses carry `stdout: "hi"`. -/
def stdoutHiNet : String → AttemptOutcome := fun _ =>
  .ok (.obj [("stdout", .str "hi"), ("exit_code", .num 0)])

/-- C10 (confirmed): the cache key is `hash(code + engine)` — the SHA-256
digest of the plain string concatenation — so the distinct requests
`("ab", "cpp")` and `("abc", "pp")` share one key. Behaviourally: running
source `"ab"` on engine `"cpp"` stores its summary under that key, and a
subsequent `execute` of source `"abc"` on engine `"pp"` (the cache probe
runs before the engine switch, so even an unknown engine probes) hits
that entry and replays the cpp result with no network attempt — the key
is not injective over `(source, engine)` pairs. -/
theorem cache_key_collision :
    (("ab", "cpp") : String × String) ≠ ("abc", "pp") ∧
    auraHash ("ab" ++ "cpp") = auraHash ("abc" ++ "pp") ∧
    (executeModel stdoutHiNet noPy "cpp" "ab" []).cache =
      [(auraHash ("ab" ++ "cpp"), Json.str "[CPP] Exit:0 hi")] ∧
    executeModel stdoutHiNet noPy "pp" "abc"
        ((executeModel stdoutHiNet noPy "cpp" "ab" []).cache) =
      ⟨.cacheHit, some (Json.str "[CPP] Exit:0 hi"),
        (executeModel stdoutHiNet noPy "cpp" "ab" []).cache, []⟩ :=
  ⟨by decide, rfl, rfl, rfl⟩
